import Mathlib

/-!
Verification development for the supabase-mcp server.

Two server variants exist in the repository:
* the simpler variant (src/index.ts), which dispatches tool calls directly, and
* the approval-gated variant (the unnamed main file), which suspends every
  tool call on an approval ticket before dispatching, and which also carries
  the tool-refresh listener set and the approval-ticket map.

The shallow embedding below models JavaScript values as an inductive `Value`
(numbers as integers; the claims only involve integer literals), argument bags
as association lists, the external collaborators (supabase client, storage,
functions, auth admin API, management REST API) as an oracle from operation
descriptions to either a result value or a failure message, and each tool
handler as a pure function from the oracle and the argument bag to a trace of
collaborator operations plus either a fault or a response envelope.
-/

namespace SupabaseMcp

/-- A JSON-like JavaScript value. Numbers are modelled as integers (the
claims only exercise integer literals); `undefined` is modelled by absence,
i.e. by `Option Value` / a missing key in an argument bag. -/
inductive Value where
  | null
  | bool (b : Bool)
  | num (n : Int)
  | str (s : String)
  | arr (elems : List Value)
  | obj (fields : List (String × Value))

/-- An argument bag: `Record<string, unknown>` as an association list. -/
abbrev Args := List (String × Value)

/-- First-match association-list lookup, modelling JS property access
(`undefined`, i.e. `none`, when the key is missing). -/
def lookupArg (args : Args) (k : String) : Option Value :=
  match args with
  | [] => none
  | (k2, v) :: rest => if k2 = k then some v else lookupArg rest k

/-- JavaScript falsiness of a present value: null, false, 0 and the empty
string are falsy; every array and object is truthy. -/
def jsFalsy : Value → Bool
  | .null => true
  | .bool b => !b
  | .num n => n == 0
  | .str s => s == ""
  | .arr _ => false
  | .obj _ => false

/-- `!x` on an argument-bag member: a missing key (undefined) is falsy, a
present value is falsy per `jsFalsy`. This is the check the handlers use for
required parameters (`if (!typedArgs.table) ...`). -/
def argFalsy (args : Args) (k : String) : Bool :=
  match lookupArg args k with
  | none => true
  | some v => jsFalsy v

/-- `Object.entries(v)`: fields of an object, index/element pairs of an
array, index/character pairs of a string, and empty for primitives. -/
def jsEntriesTotal : Value → List (String × Value)
  | .obj fields => fields
  | .arr elems => elems.enum.map fun p => (toString p.1, p.2)
  | .str s => s.data.enum.map fun p => (toString p.1, Value.str p.2.toString)
  | _ => []

/-- `typeof v === 'object' && v !== null` (arrays included, null excluded). -/
def isJsObjectType : Value → Bool
  | .obj _ => true
  | .arr _ => true
  | _ => false

mutual
/-- JS string coercion as used in template literals and `join`. (Array
elements that are null would coerce to the empty string inside `join`; that
edge is not exercised by any claim and is approximated by "null".) -/
def jsToString : Value → String
  | .null => "null"
  | .bool b => cond b "true" "false"
  | .num n => toString n
  | .str s => s
  | .arr elems => jsToStringList elems
  | .obj _ => "[object Object]"

def jsToStringList : List Value → String
  | [] => ""
  | [v] => jsToString v
  | v :: rest => jsToString v ++ "," ++ jsToStringList rest
end

mutual
/-- Model of `JSON.stringify` (the pretty-printing whitespace of
`JSON.stringify(data, null, 2)` is not reproduced; no claim depends on the
serialised text of a success payload). -/
def jsonStringify : Value → String
  | .null => "null"
  | .bool b => cond b "true" "false"
  | .num n => toString n
  | .str s => "\"" ++ s ++ "\""
  | .arr elems => "[" ++ jsonList elems ++ "]"
  | .obj fields => "\x7b" ++ jsonFields fields ++ "\x7d"

def jsonList : List Value → String
  | [] => ""
  | [v] => jsonStringify v
  | v :: rest => jsonStringify v ++ "," ++ jsonList rest

def jsonFields : List (String × Value) → String
  | [] => ""
  | [p] => "\"" ++ p.1 ++ "\":" ++ jsonStringify p.2
  | p :: rest => "\"" ++ p.1 ++ "\":" ++ jsonStringify p.2 ++ "," ++ jsonFields rest
end

/-- `v || d` for an optional argument: the value when truthy, else the
default. -/
def jsOr (v : Option Value) (d : Value) : Value :=
  match v with
  | some x => if jsFalsy x then d else x
  | none => d

/-- `(x as string) || d` where the argument is expected to be a string. -/
def jsStrOr (v : Option Value) (d : String) : String :=
  match v with
  | some (.str s) => if s = "" then d else s
  | _ => d

/-- The argument value after a passed truthiness guard (the guard guarantees
presence, so the default branch is unreachable in guarded uses). -/
def getArg (args : Args) (k : String) : Value :=
  (lookupArg args k).getD .null

/-- Does `pat` occur at the head of `s`? -/
def patAtHead : List Char → List Char → Bool
  | _, [] => true
  | [], _ :: _ => false
  | a :: as, b :: bs => a == b && patAtHead as bs

/-- Does `pat` occur anywhere inside `s`? -/
def patInside (pat : List Char) : List Char → Bool
  | [] => patAtHead [] pat
  | c :: rest => patAtHead (c :: rest) pat || patInside pat rest

/-- Substring test on strings. -/
def strContains (s pat : String) : Bool := patInside pat.data s.data

/-! ## Query constraints and filter translation -/

/-- One condition applied to a PostgREST query builder: `eq(field, v)` or
`filter(field, op, v)`. -/
inductive Constraint where
  | eq (field : String) (v : Value)
  | cmp (field : String) (op : String) (v : Value)

/-- Filter translation of the simpler variant's `read_records` handler:
for each entry, a nested object or array value (`typeof value === 'object'
&& value !== null`) contributes one `filter(key, op, val)` condition per
`Object.entries` pair, and any other value contributes `eq(key, value)`.
Conditions of successive entries are chained (AND) on the query builder. -/
def readFilterConstraints : List (String × Value) → List Constraint
  | [] => []
  | (key, value) :: rest =>
    (if isJsObjectType value then
       (jsEntriesTotal value).map fun c => Constraint.cmp key c.1 c.2
     else [Constraint.eq key value]) ++ readFilterConstraints rest

/-- Filter translation of the `update_record`/`delete_record` handlers of the
simpler variant and of all filtering handlers of the approval-gated variant:
every entry becomes `eq(key, value)`, whatever shape the value has. -/
def eqFilterConstraints (fs : List (String × Value)) : List Constraint :=
  fs.map fun p => Constraint.eq p.1 p.2

/-- `if (typedArgs.filter) ...` around the read-translation. -/
def readFilterOf (v : Option Value) : List Constraint :=
  match v with
  | some fv => if jsFalsy fv then [] else readFilterConstraints (jsEntriesTotal fv)
  | none => []

/-- `if (typedArgs.filter) ...` around the equality-only translation. -/
def eqFilterOf (v : Option Value) : List Constraint :=
  match v with
  | some fv => if jsFalsy fv then [] else eqFilterConstraints (jsEntriesTotal fv)
  | none => []

/-- `(typedArgs.select as string[])?.join(',') || '*'` (and the same pattern
for `returning` in `create_record`): absent or empty yields `'*'`. The tool
schemas declare these arguments as string arrays; non-array values are
approximated by the default. -/
def selectStr (v : Option Value) : String :=
  match v with
  | some (.arr elems) =>
    let s := jsToStringList elems
    if s = "" then "*" else s
  | _ => "*"

/-- `typedArgs.returning ? query.select((returning as string[]).join(',')) :
query`: a truthy `returning` adds a select with the joined field list (no
`|| '*'` fallback here), a falsy or absent one adds nothing. -/
def returningSel (v : Option Value) : Option String :=
  match v with
  | some rv =>
    if jsFalsy rv then none
    else some (jsToStringList (match rv with | .arr es => es | _ => []))
  | none => none

/-- A join spec of the approval-gated variant's `read_records`. -/
structure JoinSpec where
  jtype : String
  jtable : Value
  onCond : Value

/-- Join handling: `join.type || 'left'`, then a switch over
inner/left/right/full with no default, so an unrecognised type adds no join. -/
def joinSpecsOf (v : Value) : List JoinSpec :=
  match v with
  | .arr js =>
    js.filterMap fun j =>
      let fields := match j with | .obj fs => fs | _ => []
      let jt := jsStrOr (lookupArg fields "type") "left"
      if jt = "inner" || jt = "left" || jt = "right" || jt = "full" then
        some ⟨jt, (lookupArg fields "table").getD .null, (lookupArg fields "on").getD .null⟩
      else none
  | _ => []

/-- `if (typedArgs.joins) ...`. -/
def gatedJoins (v : Option Value) : List JoinSpec :=
  match v with
  | some jv => if jsFalsy jv then [] else joinSpecsOf jv
  | none => []

/-- `typedArgs.limit ? q.limit(typedArgs.limit as number) : q` (a limit of 0
is falsy and applies no limit). -/
def gatedLimit (v : Option Value) : Option Value :=
  match v with
  | some lv => if jsFalsy lv then none else some lv
  | none => none

/-! ## Collaborator operations, faults, envelopes -/

/-- Base URL of the management REST API. -/
def MANAGEMENT_API_URL : String := "https://api.supabase.com/v1"

/-- One external-collaborator operation, as the handlers issue them. Argument
values are carried as passed (the `as string` casts in the source are
compile-time only). -/
inductive CollabOp where
  | dbInsert (table : Value) (data : Value) (sel : String)
  | dbSelect (table : Value) (sel : String) (constraints : List Constraint)
  | gDbSelect (table : Value) (constraints : List Constraint) (joins : List JoinSpec)
      (sel : String) (lim : Option Value)
  | dbUpdate (table : Value) (data : Value) (constraints : List Constraint) (retSel : Option String)
  | dbDelete (table : Value) (constraints : List Constraint) (retSel : Option String)
  | rpcListTables (schema : String)
  | fallbackListTables (schema : String)
  | storageUpload (bucket path file : Value) (options : Option Value)
  | storageDownload (bucket path : Value)
  | fnInvoke (fname : Value) (params : Option Value)
  | mgmt (method : String) (url : String) (body : Option Value)
  | authListUsers (page perPage : Option Value)
  | authGetUser (uid : Value)
  | authCreateUser (email : Value) (emailConfirm : Bool) (meta : Option Value)
  | authUpdateUser (uid : Value) (email password meta : Option Value)
  | authDeleteUser (uid : Value)
  | authAssignRole (uid role : Value)
  | authRemoveRole (uid role : Value)

/-- The external collaborator: for each operation, either a result value or a
failure text (the `error.message` of a client error, or the `statusText` of a
failed management-API response). -/
abbrev Oracle := CollabOp → Except String Value

/-- MCP error codes used by the handlers. -/
inductive McpCode where
  | invalidRequest
  | methodNotFound
  | invalidParams

/-- A fault raised inside a tool-call handler: a thrown `McpError` or a
thrown collaborator/`Error` value, each carrying a message. -/
inductive Fault where
  | mcp (code : McpCode) (msg : String)
  | js (msg : String)

/-- The message carried by a fault (`error.message` at the catch site). -/
def Fault.message : Fault → String
  | .mcp _ m => m
  | .js m => m

/-- One element of a response envelope's content sequence. -/
structure ContentItem where
  type : String
  text : String

/-- The uniform tool response envelope. -/
structure Envelope where
  content : List ContentItem
  isError : Option Bool

/-- A success envelope wrapping serialised result text. -/
def okEnvelope (t : String) : Envelope :=
  { content := [{ type := "text", text := t }], isError := none }

/-- The envelope produced by the catch block at the dispatch boundary:
`content: [{type: 'text', text: 'Error: ' + message}], isError: true`. -/
def errEnvelope (m : String) : Envelope :=
  { content := [{ type := "text", text := "Error: " ++ m }], isError := some true }

/-- The text of an envelope's content (every handler produces a
single-element content sequence). -/
def envText (e : Envelope) : String :=
  match e.content with
  | [c] => c.text
  | l => String.join (l.map ContentItem.text)

/-- Is this handler outcome a thrown `McpError(ErrorCode.InvalidParams, _)`? -/
def isInvalidParamsFault : Except Fault Envelope → Bool
  | .error (Fault.mcp McpCode.invalidParams _) => true
  | _ => false

/-! ## Tool catalogs -/

/-- A tool descriptor, restricted to the parts the claims exercise: the tool
name and the `required` field list of its input schema. -/
structure ToolDescriptor where
  name : String
  required : List String
deriving DecidableEq

/-- The tool catalog of the simpler variant (src/index.ts), in declaration
order, with each schema's `required` list. -/
def catalog : List ToolDescriptor :=
  [ ⟨"create_record", ["table", "data"]⟩,
    ⟨"read_records", ["table"]⟩,
    ⟨"update_record", ["table", "data"]⟩,
    ⟨"delete_record", ["table"]⟩,
    ⟨"upload_file", ["bucket", "path", "file"]⟩,
    ⟨"download_file", ["bucket", "path"]⟩,
    ⟨"invoke_function", ["function"]⟩,
    ⟨"list_projects", []⟩,
    ⟨"get_project", ["project_id"]⟩,
    ⟨"create_project", ["name", "organization_id", "region", "db_pass"]⟩,
    ⟨"delete_project", ["project_id"]⟩,
    ⟨"list_organizations", []⟩,
    ⟨"get_organization", ["organization_id"]⟩,
    ⟨"create_organization", ["name"]⟩,
    ⟨"get_project_api_keys", ["project_id"]⟩,
    ⟨"list_users", []⟩,
    ⟨"get_user", ["user_id"]⟩,
    ⟨"create_user", ["email", "password"]⟩,
    ⟨"update_user", ["user_id"]⟩,
    ⟨"delete_user", ["user_id"]⟩,
    ⟨"assign_user_role", ["user_id", "role"]⟩,
    ⟨"remove_user_role", ["user_id", "role"]⟩ ]

/-- The tool names of the simpler variant's catalog. -/
def catalogNames : List String := catalog.map ToolDescriptor.name

/-- The tool catalog of the approval-gated variant, in declaration order. -/
def gatedCatalog : List ToolDescriptor :=
  [ ⟨"list_tables", []⟩,
    ⟨"create_record", ["table", "data"]⟩,
    ⟨"read_records", ["table"]⟩,
    ⟨"update_records", ["table", "data", "filter"]⟩,
    ⟨"delete_records", ["table", "filter"]⟩,
    ⟨"upload_file", ["bucket", "path", "file"]⟩,
    ⟨"download_file", ["bucket", "path"]⟩,
    ⟨"invoke_function", ["function"]⟩,
    ⟨"list_users", []⟩,
    ⟨"create_user", ["email", "password"]⟩,
    ⟨"update_user", ["user_id"]⟩,
    ⟨"delete_user", ["user_id"]⟩,
    ⟨"assign_user_role", ["user_id", "role"]⟩,
    ⟨"remove_user_role", ["user_id", "role"]⟩ ]

/-- The tool names of the approval-gated variant's catalog. -/
def gatedToolNames : List String := gatedCatalog.map ToolDescriptor.name

/-! ## The simpler variant's dispatcher (src/index.ts) -/

/-- Outcome of one handler body: the collaborator operations it issued, and
either a response envelope or a thrown fault. -/
structure DispatchOut where
  trace : List CollabOp
  result : Except Fault Envelope

/-- `const (data, error) = await <op>; if (error) throw error; return <k data>`. -/
def runCollab (oracle : Oracle) (op : CollabOp) (k : Value → Envelope) : DispatchOut :=
  match oracle op with
  | .error e => ⟨[op], .error (Fault.js e)⟩
  | .ok d => ⟨[op], .ok (k d)⟩

/-- A management-API `fetch`: `if (!response.ok) throw new Error(prefix +
response.statusText)`. -/
def runCollabMgmt (oracle : Oracle) (op : CollabOp) (failPrefix : String)
    (k : Value → Envelope) : DispatchOut :=
  match oracle op with
  | .error statusText => ⟨[op], .error (Fault.js (failPrefix ++ statusText))⟩
  | .ok d => ⟨[op], .ok (k d)⟩

def runCreateRecord (oracle : Oracle) (args : Args) : DispatchOut :=
  if argFalsy args "table" || argFalsy args "data" then
    ⟨[], .error (Fault.mcp .invalidParams "Missing required parameters: table, data")⟩
  else
    runCollab oracle
      (CollabOp.dbInsert (getArg args "table") (getArg args "data")
        (selectStr (lookupArg args "returning")))
      (fun d => okEnvelope (jsonStringify d))

def runReadRecords (oracle : Oracle) (args : Args) : DispatchOut :=
  if argFalsy args "table" then
    ⟨[], .error (Fault.mcp .invalidParams "Missing required parameter: table")⟩
  else
    runCollab oracle
      (CollabOp.dbSelect (getArg args "table") (selectStr (lookupArg args "select"))
        (readFilterOf (lookupArg args "filter")))
      (fun d => okEnvelope (jsonStringify d))

def runUpdateRecord (oracle : Oracle) (args : Args) : DispatchOut :=
  if argFalsy args "table" || argFalsy args "data" then
    ⟨[], .error (Fault.mcp .invalidParams "Missing required parameters: table, data")⟩
  else
    runCollab oracle
      (CollabOp.dbUpdate (getArg args "table") (getArg args "data")
        (eqFilterOf (lookupArg args "filter")) (returningSel (lookupArg args "returning")))
      (fun d => okEnvelope (jsonStringify d))

def runDeleteRecord (oracle : Oracle) (args : Args) : DispatchOut :=
  if argFalsy args "table" then
    ⟨[], .error (Fault.mcp .invalidParams "Missing required parameter: table")⟩
  else
    runCollab oracle
      (CollabOp.dbDelete (getArg args "table")
        (eqFilterOf (lookupArg args "filter")) (returningSel (lookupArg args "returning")))
      (fun d => okEnvelope (jsonStringify d))

def runUploadFile (oracle : Oracle) (args : Args) : DispatchOut :=
  if argFalsy args "bucket" || argFalsy args "path" || argFalsy args "file" then
    ⟨[], .error (Fault.mcp .invalidParams "Missing required parameters: bucket, path, file")⟩
  else
    runCollab oracle
      (CollabOp.storageUpload (getArg args "bucket") (getArg args "path") (getArg args "file")
        (lookupArg args "options"))
      (fun d => okEnvelope (jsonStringify d))

def runDownloadFile (oracle : Oracle) (args : Args) : DispatchOut :=
  if argFalsy args "bucket" || argFalsy args "path" then
    ⟨[], .error (Fault.mcp .invalidParams "Missing required parameters: bucket, path")⟩
  else
    runCollab oracle
      (CollabOp.storageDownload (getArg args "bucket") (getArg args "path"))
      (fun d => okEnvelope (jsonStringify d))

def runInvokeFunction (oracle : Oracle) (args : Args) : DispatchOut :=
  if argFalsy args "function" then
    ⟨[], .error (Fault.mcp .invalidParams "Missing required parameter: function")⟩
  else
    runCollab oracle
      (CollabOp.fnInvoke (getArg args "function") (lookupArg args "params"))
      (fun d => okEnvelope (jsonStringify d))

def runListProjects (oracle : Oracle) : DispatchOut :=
  runCollabMgmt oracle (CollabOp.mgmt "GET" (MANAGEMENT_API_URL ++ "/projects") none)
    "Failed to list projects: "
    (fun d => okEnvelope (jsonStringify d))

def runGetProject (oracle : Oracle) (args : Args) : DispatchOut :=
  if argFalsy args "project_id" then
    ⟨[], .error (Fault.mcp .invalidParams "Missing required parameter: project_id")⟩
  else
    runCollabMgmt oracle
      (CollabOp.mgmt "GET"
        (MANAGEMENT_API_URL ++ "/projects/" ++ jsToString (getArg args "project_id")) none)
      "Failed to get project: "
      (fun d => okEnvelope (jsonStringify d))

def runCreateProject (oracle : Oracle) (args : Args) : DispatchOut :=
  if argFalsy args "name" || argFalsy args "organization_id" || argFalsy args "region"
      || argFalsy args "db_pass" then
    ⟨[], .error (Fault.mcp .invalidParams
      "Missing required parameters: name, organization_id, region, db_pass")⟩
  else
    runCollabMgmt oracle
      (CollabOp.mgmt "POST" (MANAGEMENT_API_URL ++ "/projects")
        (some (Value.obj
          [("name", getArg args "name"),
           ("organization_id", getArg args "organization_id"),
           ("region", getArg args "region"),
           ("db_pass", getArg args "db_pass"),
           ("plan", jsOr (lookupArg args "plan") (Value.str "free"))])))
      "Failed to create project: "
      (fun d => okEnvelope (jsonStringify d))

def runDeleteProject (oracle : Oracle) (args : Args) : DispatchOut :=
  if argFalsy args "project_id" then
    ⟨[], .error (Fault.mcp .invalidParams "Missing required parameter: project_id")⟩
  else
    runCollabMgmt oracle
      (CollabOp.mgmt "DELETE"
        (MANAGEMENT_API_URL ++ "/projects/" ++ jsToString (getArg args "project_id")) none)
      "Failed to delete project: "
      (fun _ => okEnvelope "Project deleted successfully")

def runListOrganizations (oracle : Oracle) : DispatchOut :=
  runCollabMgmt oracle (CollabOp.mgmt "GET" (MANAGEMENT_API_URL ++ "/organizations") none)
    "Failed to list organizations: "
    (fun d => okEnvelope (jsonStringify d))

def runGetOrganization (oracle : Oracle) (args : Args) : DispatchOut :=
  if argFalsy args "organization_id" then
    ⟨[], .error (Fault.mcp .invalidParams "Missing required parameter: organization_id")⟩
  else
    runCollabMgmt oracle
      (CollabOp.mgmt "GET"
        (MANAGEMENT_API_URL ++ "/organizations/" ++ jsToString (getArg args "organization_id"))
        none)
      "Failed to get organization: "
      (fun d => okEnvelope (jsonStringify d))

def runCreateOrganization (oracle : Oracle) (args : Args) : DispatchOut :=
  if argFalsy args "name" then
    ⟨[], .error (Fault.mcp .invalidParams "Missing required parameter: name")⟩
  else
    runCollabMgmt oracle
      (CollabOp.mgmt "POST" (MANAGEMENT_API_URL ++ "/organizations")
        (some (Value.obj [("name", getArg args "name")])))
      "Failed to create organization: "
      (fun d => okEnvelope (jsonStringify d))

def runGetProjectApiKeys (oracle : Oracle) (args : Args) : DispatchOut :=
  if argFalsy args "project_id" then
    ⟨[], .error (Fault.mcp .invalidParams "Missing required parameter: project_id")⟩
  else
    runCollabMgmt oracle
      (CollabOp.mgmt "GET"
        (MANAGEMENT_API_URL ++ "/projects/" ++ jsToString (getArg args "project_id")
          ++ "/api-keys") none)
      "Failed to get project API keys: "
      (fun d => okEnvelope (jsonStringify d))

def runListUsers (oracle : Oracle) (args : Args) : DispatchOut :=
  runCollab oracle
    (CollabOp.authListUsers
      (some (jsOr (lookupArg args "page") (Value.num 1)))
      (some (jsOr (lookupArg args "per_page") (Value.num 50))))
    (fun d => okEnvelope (jsonStringify d))

def runGetUser (oracle : Oracle) (args : Args) : DispatchOut :=
  if argFalsy args "user_id" then
    ⟨[], .error (Fault.mcp .invalidParams "Missing required parameter: user_id")⟩
  else
    runCollab oracle (CollabOp.authGetUser (getArg args "user_id"))
      (fun d => okEnvelope (jsonStringify d))

def runCreateUser (oracle : Oracle) (args : Args) : DispatchOut :=
  if argFalsy args "email" || argFalsy args "password" then
    ⟨[], .error (Fault.mcp .invalidParams "Missing required parameters: email, password")⟩
  else
    runCollab oracle
      (CollabOp.authCreateUser (getArg args "email") true (lookupArg args "data"))
      (fun d => okEnvelope (jsonStringify d))

def runUpdateUser (oracle : Oracle) (args : Args) : DispatchOut :=
  if argFalsy args "user_id" then
    ⟨[], .error (Fault.mcp .invalidParams "Missing required parameter: user_id")⟩
  else
    runCollab oracle
      (CollabOp.authUpdateUser (getArg args "user_id") (lookupArg args "email")
        (lookupArg args "password") (lookupArg args "data"))
      (fun d => okEnvelope (jsonStringify d))

def runDeleteUser (oracle : Oracle) (args : Args) : DispatchOut :=
  if argFalsy args "user_id" then
    ⟨[], .error (Fault.mcp .invalidParams "Missing required parameter: user_id")⟩
  else
    runCollab oracle (CollabOp.authDeleteUser (getArg args "user_id"))
      (fun _ => okEnvelope "User deleted successfully")

def runAssignUserRole (oracle : Oracle) (args : Args) : DispatchOut :=
  if argFalsy args "user_id" || argFalsy args "role" then
    ⟨[], .error (Fault.mcp .invalidParams "Missing required parameters: user_id, role")⟩
  else
    runCollab oracle (CollabOp.authAssignRole (getArg args "user_id") (getArg args "role"))
      (fun _ => okEnvelope "Role assigned successfully")

def runRemoveUserRole (oracle : Oracle) (args : Args) : DispatchOut :=
  if argFalsy args "user_id" || argFalsy args "role" then
    ⟨[], .error (Fault.mcp .invalidParams "Missing required parameters: user_id, role")⟩
  else
    runCollab oracle (CollabOp.authRemoveRole (getArg args "user_id") (getArg args "role"))
      (fun _ => okEnvelope "Role removed successfully")

/-- The `switch (name)` of the simpler variant's CallTool handler. -/
def dispatchInner (oracle : Oracle) (name : String) (args : Args) : DispatchOut :=
  if name = "create_record" then runCreateRecord oracle args
  else if name = "read_records" then runReadRecords oracle args
  else if name = "update_record" then runUpdateRecord oracle args
  else if name = "delete_record" then runDeleteRecord oracle args
  else if name = "upload_file" then runUploadFile oracle args
  else if name = "download_file" then runDownloadFile oracle args
  else if name = "invoke_function" then runInvokeFunction oracle args
  else if name = "list_projects" then runListProjects oracle
  else if name = "get_project" then runGetProject oracle args
  else if name = "create_project" then runCreateProject oracle args
  else if name = "delete_project" then runDeleteProject oracle args
  else if name = "list_organizations" then runListOrganizations oracle
  else if name = "get_organization" then runGetOrganization oracle args
  else if name = "create_organization" then runCreateOrganization oracle args
  else if name = "get_project_api_keys" then runGetProjectApiKeys oracle args
  else if name = "list_users" then runListUsers oracle args
  else if name = "get_user" then runGetUser oracle args
  else if name = "create_user" then runCreateUser oracle args
  else if name = "update_user" then runUpdateUser oracle args
  else if name = "delete_user" then runDeleteUser oracle args
  else if name = "assign_user_role" then runAssignUserRole oracle args
  else if name = "remove_user_role" then runRemoveUserRole oracle args
  else ⟨[], .error (Fault.mcp .methodNotFound ("Unknown tool: " ++ name))⟩

/-- The simpler variant's CallTool handler with its catch boundary: a thrown
fault becomes a returned envelope with `isError: true` and text
`'Error: ' + message`; the handler itself never raises. -/
def handleCallTool (oracle : Oracle) (name : String) (args : Args) :
    Envelope × List CollabOp :=
  match (dispatchInner oracle name args).result with
  | .ok env => (env, (dispatchInner oracle name args).trace)
  | .error f => (errEnvelope (Fault.message f), (dispatchInner oracle name args).trace)

/-! ## The approval-gated variant's CallTool handler -/

/-- An observable step of the gated handler, in the order it happens:
creation/notification of the approval ticket, its resolution, the
required-argument check, a collaborator invocation, the composition of the
response. -/
inductive GEvent where
  | approvalRequested
  | approvalResolved (approved : Bool)
  | validationFailed
  | validationPassed
  | collab (op : CollabOp)
  | respond

/-- As `runCollab`, recording the issued operation as an event after the
given preceding events. -/
def runCollabG (oracle : Oracle) (pre : List GEvent) (op : CollabOp)
    (k : Value → Envelope) : List GEvent × Except Fault Envelope :=
  match oracle op with
  | .error e => (pre ++ [GEvent.collab op], .error (Fault.js e))
  | .ok d => (pre ++ [GEvent.collab op], .ok (k d))

/-- `(typedArgs.schema as string) || 'public'`. -/
def schemaOf (args : Args) : String := jsStrOr (lookupArg args "schema") "public"

/-- `JSON.stringify(data || [], ...)`. -/
def jsOrEmptyArr (v : Value) : Value := if jsFalsy v then Value.arr [] else v

/-- `fallbackData?.map(row => row.table_name) || []`; a missing field is
approximated by null (it serialises as null inside the array either way). -/
def tableNamesOf : Value → Value
  | .arr rows =>
    .arr (rows.map fun r => match r with | .obj fs => (lookupArg fs "table_name").getD .null | _ => .null)
  | _ => .arr []

def runListTablesG (oracle : Oracle) (args : Args) : List GEvent × Except Fault Envelope :=
  match oracle (CollabOp.rpcListTables (schemaOf args)) with
  | .ok d =>
    ([GEvent.collab (CollabOp.rpcListTables (schemaOf args))],
     .ok (okEnvelope (jsonStringify (jsOrEmptyArr d))))
  | .error _ =>
    match oracle (CollabOp.fallbackListTables (schemaOf args)) with
    | .error e2 =>
      ([GEvent.collab (CollabOp.rpcListTables (schemaOf args)),
        GEvent.collab (CollabOp.fallbackListTables (schemaOf args))],
       .error (Fault.js e2))
    | .ok d =>
      ([GEvent.collab (CollabOp.rpcListTables (schemaOf args)),
        GEvent.collab (CollabOp.fallbackListTables (schemaOf args))],
       .ok (okEnvelope (jsonStringify (tableNamesOf d))))

def runCreateRecordG (oracle : Oracle) (args : Args) : List GEvent × Except Fault Envelope :=
  if argFalsy args "table" || argFalsy args "data" then
    ([GEvent.validationFailed],
     .error (Fault.mcp .invalidParams "Missing required parameters: table, data"))
  else
    runCollabG oracle [GEvent.validationPassed]
      (CollabOp.dbInsert (getArg args "table") (getArg args "data")
        (selectStr (lookupArg args "returning")))
      (fun d => okEnvelope (jsonStringify d))

def runReadRecordsG (oracle : Oracle) (args : Args) : List GEvent × Except Fault Envelope :=
  if argFalsy args "table" then
    ([GEvent.validationFailed],
     .error (Fault.mcp .invalidParams "Missing required parameter: table"))
  else
    runCollabG oracle [GEvent.validationPassed]
      (CollabOp.gDbSelect (getArg args "table")
        (eqFilterOf (lookupArg args "filter"))
        (gatedJoins (lookupArg args "joins"))
        (selectStr (lookupArg args "select"))
        (gatedLimit (lookupArg args "limit")))
      (fun d => okEnvelope (jsonStringify d))

def runUpdateRecordsG (oracle : Oracle) (args : Args) : List GEvent × Except Fault Envelope :=
  if argFalsy args "table" || argFalsy args "data" || argFalsy args "filter" then
    ([GEvent.validationFailed],
     .error (Fault.mcp .invalidParams "Missing required parameters: table, data, filter"))
  else
    runCollabG oracle [GEvent.validationPassed]
      (CollabOp.dbUpdate (getArg args "table") (getArg args "data")
        (eqFilterConstraints (jsEntriesTotal (getArg args "filter")))
        (returningSel (lookupArg args "returning")))
      (fun d => okEnvelope (jsonStringify d))

def runDeleteRecordsG (oracle : Oracle) (args : Args) : List GEvent × Except Fault Envelope :=
  if argFalsy args "table" || argFalsy args "filter" then
    ([GEvent.validationFailed],
     .error (Fault.mcp .invalidParams "Missing required parameters: table, filter"))
  else
    runCollabG oracle [GEvent.validationPassed]
      (CollabOp.dbDelete (getArg args "table")
        (eqFilterConstraints (jsEntriesTotal (getArg args "filter")))
        (returningSel (lookupArg args "returning")))
      (fun d => okEnvelope (jsonStringify d))

def runUploadFileG (oracle : Oracle) (args : Args) : List GEvent × Except Fault Envelope :=
  if argFalsy args "bucket" || argFalsy args "path" || argFalsy args "file" then
    ([GEvent.validationFailed],
     .error (Fault.mcp .invalidParams "Missing required parameters: bucket, path, file"))
  else
    runCollabG oracle [GEvent.validationPassed]
      (CollabOp.storageUpload (getArg args "bucket") (getArg args "path")
        (getArg args "file") (lookupArg args "options"))
      (fun d => okEnvelope (jsonStringify d))

def runDownloadFileG (oracle : Oracle) (args : Args) : List GEvent × Except Fault Envelope :=
  if argFalsy args "bucket" || argFalsy args "path" then
    ([GEvent.validationFailed],
     .error (Fault.mcp .invalidParams "Missing required parameters: bucket, path"))
  else
    runCollabG oracle [GEvent.validationPassed]
      (CollabOp.storageDownload (getArg args "bucket") (getArg args "path"))
      (fun d => okEnvelope (jsonStringify d))

def runInvokeFunctionG (oracle : Oracle) (args : Args) : List GEvent × Except Fault Envelope :=
  if argFalsy args "function" then
    ([GEvent.validationFailed],
     .error (Fault.mcp .invalidParams "Missing required parameter: function"))
  else
    runCollabG oracle [GEvent.validationPassed]
      (CollabOp.fnInvoke (getArg args "function") (lookupArg args "params"))
      (fun d => okEnvelope (jsonStringify d))

def runListUsersG (oracle : Oracle) (args : Args) : List GEvent × Except Fault Envelope :=
  runCollabG oracle []
    (CollabOp.authListUsers (lookupArg args "page") (lookupArg args "per_page"))
    (fun d => okEnvelope (jsonStringify d))

def runCreateUserG (oracle : Oracle) (args : Args) : List GEvent × Except Fault Envelope :=
  if argFalsy args "email" || argFalsy args "password" then
    ([GEvent.validationFailed],
     .error (Fault.mcp .invalidParams "Missing required parameters: email, password"))
  else
    runCollabG oracle [GEvent.validationPassed]
      (CollabOp.authCreateUser (getArg args "email") false (lookupArg args "data"))
      (fun d => okEnvelope (jsonStringify d))

def runUpdateUserG (oracle : Oracle) (args : Args) : List GEvent × Except Fault Envelope :=
  if argFalsy args "user_id" then
    ([GEvent.validationFailed],
     .error (Fault.mcp .invalidParams "Missing required parameter: user_id"))
  else
    runCollabG oracle [GEvent.validationPassed]
      (CollabOp.authUpdateUser (getArg args "user_id") (lookupArg args "email")
        (lookupArg args "password") (lookupArg args "data"))
      (fun d => okEnvelope (jsonStringify d))

def runDeleteUserG (oracle : Oracle) (args : Args) : List GEvent × Except Fault Envelope :=
  if argFalsy args "user_id" then
    ([GEvent.validationFailed],
     .error (Fault.mcp .invalidParams "Missing required parameter: user_id"))
  else
    runCollabG oracle [GEvent.validationPassed]
      (CollabOp.authDeleteUser (getArg args "user_id"))
      (fun _ => okEnvelope (jsonStringify (Value.obj [("success", Value.bool true)])))

def runAssignUserRoleG (oracle : Oracle) (args : Args) : List GEvent × Except Fault Envelope :=
  if argFalsy args "user_id" || argFalsy args "role" then
    ([GEvent.validationFailed],
     .error (Fault.mcp .invalidParams "Missing required parameters: user_id, role"))
  else
    runCollabG oracle [GEvent.validationPassed]
      (CollabOp.authAssignRole (getArg args "user_id") (getArg args "role"))
      (fun _ => okEnvelope (jsonStringify (Value.obj [("success", Value.bool true)])))

def runRemoveUserRoleG (oracle : Oracle) (args : Args) : List GEvent × Except Fault Envelope :=
  if argFalsy args "user_id" || argFalsy args "role" then
    ([GEvent.validationFailed],
     .error (Fault.mcp .invalidParams "Missing required parameters: user_id, role"))
  else
    runCollabG oracle [GEvent.validationPassed]
      (CollabOp.authRemoveRole (getArg args "user_id") (getArg args "role"))
      (fun _ => okEnvelope (jsonStringify (Value.obj [("success", Value.bool true)])))

/-- The `switch (name)` of the gated variant's CallTool handler (executed
only after approval). -/
def gatedDispatch (oracle : Oracle) (name : String) (args : Args) :
    List GEvent × Except Fault Envelope :=
  if name = "create_record" then runCreateRecordG oracle args
  else if name = "list_tables" then runListTablesG oracle args
  else if name = "read_records" then runReadRecordsG oracle args
  else if name = "update_records" then runUpdateRecordsG oracle args
  else if name = "delete_records" then runDeleteRecordsG oracle args
  else if name = "upload_file" then runUploadFileG oracle args
  else if name = "download_file" then runDownloadFileG oracle args
  else if name = "invoke_function" then runInvokeFunctionG oracle args
  else if name = "list_users" then runListUsersG oracle args
  else if name = "create_user" then runCreateUserG oracle args
  else if name = "update_user" then runUpdateUserG oracle args
  else if name = "delete_user" then runDeleteUserG oracle args
  else if name = "assign_user_role" then runAssignUserRoleG oracle args
  else if name = "remove_user_role" then runRemoveUserRoleG oracle args
  else ([], .error (Fault.mcp .methodNotFound ("Unknown tool: " ++ name)))

/-- The gated handler after approval resolution: a denial throws
`McpError(ErrorCode.InvalidRequest, 'Tool call was denied by user')` before
the switch is reached; approval proceeds to the switch. The approval outcome
is the boolean the external resolver passed to the suspended promise. -/
def gatedInner (oracle : Oracle) (approved : Bool) (name : String) (args : Args) :
    List GEvent × Except Fault Envelope :=
  if approved then gatedDispatch oracle name args
  else ([], .error (Fault.mcp .invalidRequest "Tool call was denied by user"))

/-- The full event trace of a gated call: the ticket is created and the
notification emitted, the ticket is resolved, the post-approval steps run,
and a response is composed (the catch boundary guarantees the response even
on a fault). -/
def gatedTrace (oracle : Oracle) (approved : Bool) (name : String) (args : Args) :
    List GEvent :=
  GEvent.approvalRequested :: GEvent.approvalResolved approved ::
    ((gatedInner oracle approved name args).1 ++ [GEvent.respond])

/-- The gated variant's CallTool handler with its catch boundary. -/
def handleCallToolGated (oracle : Oracle) (approved : Bool) (name : String) (args : Args) :
    Envelope × List GEvent :=
  match (gatedInner oracle approved name args).2 with
  | .ok env => (env, gatedTrace oracle approved name args)
  | .error f => (errEnvelope (Fault.message f), gatedTrace oracle approved name args)

/-- Is an event a collaborator invocation? -/
def isCollabEvent : GEvent → Bool
  | .collab _ => true
  | _ => false

/-- Number of collaborator invocations recorded in a trace. -/
def gatedCollabCount (evs : List GEvent) : Nat := (evs.filter isCollabEvent).length

/-! ## The approval-ticket map (`handleToolApproval`) -/

/-- The process-wide ticket map `toolApprovalCallbacks`: correlation id to
resolver callback. Callbacks are modelled by an identity so that their
invocation is observable. -/
abbrev TicketMap := List (String × Nat)

/-- `Map.prototype.get`. -/
def mapGet (m : TicketMap) (k : String) : Option Nat :=
  match m with
  | [] => none
  | (k2, v) :: rest => if k2 = k then some v else mapGet rest k

/-- `Map.prototype.delete`. -/
def mapDelete (m : TicketMap) (k : String) : TicketMap :=
  m.filter fun p => !(p.1 = k : Bool)

/-- `handleToolApproval(requestId, approved)`: look the callback up; if
present, invoke it with the boolean and delete the ticket; otherwise do
nothing. Returns the new map and the callback invocation, if any. -/
def handleToolApproval (m : TicketMap) (requestId : String) (approved : Bool) :
    TicketMap × Option (Nat × Bool) :=
  match mapGet m requestId with
  | some cb => (mapDelete m requestId, some (cb, approved))
  | none => (m, none)

/-! ## The refresh-listener set (`onToolRefresh`, ListTools) -/

/-- The listener set `toolRefreshCallbacks`, as the list of callback
identities in insertion order (JS Set iteration order). -/
abbrev ListenerSet := List Nat

/-- `Set.prototype.add`: identity-deduplicating, insertion order kept. -/
def setAdd (s : ListenerSet) (c : Nat) : ListenerSet :=
  if c ∈ s then s else s ++ [c]

/-- `Set.prototype.delete` (never raises). -/
def setDelete (s : ListenerSet) (c : Nat) : ListenerSet :=
  s.filter fun x => !(x = c : Bool)

/-- `onToolRefresh(callback)`: add the callback and return the unregister
closure, which deletes this callback from whatever the set holds when it is
invoked. -/
def onToolRefresh (s : ListenerSet) (c : Nat) : ListenerSet × (ListenerSet → ListenerSet) :=
  (setAdd s c, fun s2 => setDelete s2 c)

/-- A registered refresh listener as the ListTools handler sees it: an
identity plus the observable behaviour of the opaque callback (whether
invoking it throws). -/
structure RefreshListener where
  id : Nat
  throws : Bool

/-- `toolRefreshCallbacks.forEach(callback => callback())`: callbacks run
synchronously in registration order; there is no try/catch, so a throwing
callback propagates its exception out of `forEach` and the remaining
callbacks never run. Returns the ids of the callbacks that were invoked and
the propagated exception, if any. -/
def runRefreshCallbacks : List RefreshListener → List Nat × Option String
  | [] => ([], none)
  | l :: rest =>
    if l.throws then ([l.id], some "listener exception")
    else
      let r := runRefreshCallbacks rest
      (l.id :: r.1, r.2)

/-- The gated variant's ListTools handler: fire every refresh callback, then
return the tool catalog. An exception from a callback escapes the handler
(no catalog is returned for that request). -/
def handleListTools (ls : List RefreshListener) :
    Except String (List ToolDescriptor) × List Nat :=
  match (runRefreshCallbacks ls).2 with
  | some e => (.error e, (runRefreshCallbacks ls).1)
  | none => (.ok gatedCatalog, (runRefreshCallbacks ls).1)

/-- A collaborator stub used for concrete evaluations: every operation
fails. Handler traces record issued operations regardless of their result. -/
def oracleStub : Oracle := fun _ => .error "stub collaborator failure"

/-! ## Ordering of the gated handler's internal steps -/

/-- Phase of an event in the order the gated code actually performs the
steps: approval first, then validation, then execution, then response. -/
def gphase : GEvent → Nat
  | .approvalRequested => 0
  | .approvalResolved _ => 0
  | .validationFailed => 1
  | .validationPassed => 1
  | .collab _ => 2
  | .respond => 3

/-- Phase of an event in the order the specification asserts: validation
first, then approval, then execution, then response. -/
def claimPhase : GEvent → Nat
  | .validationFailed => 0
  | .validationPassed => 0
  | .approvalRequested => 1
  | .approvalResolved _ => 1
  | .collab _ => 2
  | .respond => 3

/-- Is a phase list non-decreasing? -/
def phaseMono : List Nat → Bool
  | [] => true
  | [_] => true
  | a :: b :: rest => decide (a ≤ b) && phaseMono (b :: rest)

/-- The events between approval and response: only validation and
collaborator events, validations never after collaborator calls. -/
def bodyOrdered (evs : List GEvent) : Bool :=
  evs.all (fun e => gphase e == 1 || gphase e == 2) && phaseMono (evs.map gphase)

/-- The ordering the claim asserts for a whole trace: non-decreasing
`claimPhase`, i.e. validation before approval before execution before
response. -/
def claimedOrder (evs : List GEvent) : Bool := phaseMono (evs.map claimPhase)

/-- Is there an operator (`filter(key, op, val)`) comparison among the
constraints? -/
def hasCmpConstraint (cs : List Constraint) : Bool :=
  cs.any fun c => match c with | Constraint.cmp _ _ _ => true | _ => false

/-! ## Helper lemmas -/

theorem argFalsy_of_none (args : Args) (k : String) (h : lookupArg args k = none) :
    argFalsy args k = true := by
  unfold argFalsy
  rw [h]

theorem argFalsy_of_falsy (args : Args) (k : String) (v : Value)
    (h : lookupArg args k = some v) (hv : jsFalsy v = true) :
    argFalsy args k = true := by
  unfold argFalsy
  rw [h]
  exact hv

theorem handleCallTool_trace (oracle : Oracle) (name : String) (args : Args) :
    (handleCallTool oracle name args).2 = (dispatchInner oracle name args).trace := by
  unfold handleCallTool
  split <;> rfl

theorem handleCallTool_of_error (oracle : Oracle) (name : String) (args : Args)
    (f : Fault) (h : (dispatchInner oracle name args).result = .error f) :
    (handleCallTool oracle name args).1 = errEnvelope (Fault.message f) := by
  unfold handleCallTool
  rw [h]

theorem handleCallTool_of_ok (oracle : Oracle) (name : String) (args : Args)
    (env : Envelope) (h : (dispatchInner oracle name args).result = .ok env) :
    (handleCallTool oracle name args).1 = env := by
  unfold handleCallTool
  rw [h]

theorem handleCallToolGated_of_error (oracle : Oracle) (approved : Bool) (name : String)
    (args : Args) (f : Fault) (h : (gatedInner oracle approved name args).2 = .error f) :
    (handleCallToolGated oracle approved name args).1 = errEnvelope (Fault.message f) := by
  unfold handleCallToolGated
  rw [h]

theorem handleCallToolGated_trace (oracle : Oracle) (approved : Bool) (name : String)
    (args : Args) :
    (handleCallToolGated oracle approved name args).2 = gatedTrace oracle approved name args := by
  unfold handleCallToolGated
  split <;> rfl

theorem patInside_append_left (pat l1 l2 : List Char) (h : patInside pat l2 = true) :
    patInside pat (l1 ++ l2) = true := by
  induction l1 with
  | nil => simpa using h
  | cons c rest ih =>
    simp only [List.cons_append, patInside, List.append_eq, ih, Bool.or_true]

theorem strContains_append_left (a b r : String) (h : strContains b r = true) :
    strContains (a ++ b) r = true := by
  unfold strContains at *
  rw [String.data_append]
  exact patInside_append_left _ _ _ h

theorem runCollab_trace (oracle : Oracle) (op : CollabOp) (k : Value → Envelope) :
    (runCollab oracle op k).trace = [op] := by
  unfold runCollab
  split <;> rfl

theorem runCollabG_events (oracle : Oracle) (pre : List GEvent) (op : CollabOp)
    (k : Value → Envelope) :
    (runCollabG oracle pre op k).1 = pre ++ [GEvent.collab op] := by
  unfold runCollabG
  split <;> rfl

/-- Bridge from a computed missing-parameter outcome to the conclusions the
error-handling claims state. -/
theorem guardConclusion (oracle : Oracle) (name : String) (args : Args) (r msg : String)
    (hrun : dispatchInner oracle name args =
      ⟨[], .error (Fault.mcp McpCode.invalidParams msg)⟩)
    (hsub : strContains msg r = true) :
    isInvalidParamsFault (dispatchInner oracle name args).result = true
    ∧ (handleCallTool oracle name args).1.isError = some true
    ∧ strContains (envText (handleCallTool oracle name args).1) r = true
    ∧ (handleCallTool oracle name args).2 = [] := by
  have herr : (dispatchInner oracle name args).result =
      .error (Fault.mcp McpCode.invalidParams msg) := by rw [hrun]
  refine ⟨by rw [herr]; rfl, ?_, ?_, ?_⟩
  · rw [handleCallTool_of_error oracle name args _ herr]
    rfl
  · rw [handleCallTool_of_error oracle name args _ herr]
    exact strContains_append_left "Error: " msg r hsub
  · rw [handleCallTool_trace, hrun]

/-- Workhorse for the required-parameter claims: whenever the `!arg` check of
a required field of a catalog tool fires (the field is missing or falsy), the
simpler variant's dispatcher throws `InvalidParams`, the returned envelope is
the error envelope whose text names the field, and no collaborator operation
is issued. -/
theorem dispatch_requiredGuard (oracle : Oracle) (t : ToolDescriptor) (ht : t ∈ catalog)
    (r : String) (hr : r ∈ t.required) (args : Args) (hf : argFalsy args r = true) :
    isInvalidParamsFault (dispatchInner oracle t.name args).result = true
    ∧ (handleCallTool oracle t.name args).1.isError = some true
    ∧ strContains (envText (handleCallTool oracle t.name args).1) r = true
    ∧ (handleCallTool oracle t.name args).2 = [] := by
  fin_cases ht <;> fin_cases hr
  · exact guardConclusion _ _ _ _ "Missing required parameters: table, data"
      (by simp [dispatchInner, runCreateRecord, hf]) (by decide)
  · exact guardConclusion _ _ _ _ "Missing required parameters: table, data"
      (by simp [dispatchInner, runCreateRecord, hf]) (by decide)
  · exact guardConclusion _ _ _ _ "Missing required parameter: table"
      (by simp [dispatchInner, runReadRecords, hf]) (by decide)
  · exact guardConclusion _ _ _ _ "Missing required parameters: table, data"
      (by simp [dispatchInner, runUpdateRecord, hf]) (by decide)
  · exact guardConclusion _ _ _ _ "Missing required parameters: table, data"
      (by simp [dispatchInner, runUpdateRecord, hf]) (by decide)
  · exact guardConclusion _ _ _ _ "Missing required parameter: table"
      (by simp [dispatchInner, runDeleteRecord, hf]) (by decide)
  · exact guardConclusion _ _ _ _ "Missing required parameters: bucket, path, file"
      (by simp [dispatchInner, runUploadFile, hf]) (by decide)
  · exact guardConclusion _ _ _ _ "Missing required parameters: bucket, path, file"
      (by simp [dispatchInner, runUploadFile, hf]) (by decide)
  · exact guardConclusion _ _ _ _ "Missing required parameters: bucket, path, file"
      (by simp [dispatchInner, runUploadFile, hf]) (by decide)
  · exact guardConclusion _ _ _ _ "Missing required parameters: bucket, path"
      (by simp [dispatchInner, runDownloadFile, hf]) (by decide)
  · exact guardConclusion _ _ _ _ "Missing required parameters: bucket, path"
      (by simp [dispatchInner, runDownloadFile, hf]) (by decide)
  · exact guardConclusion _ _ _ _ "Missing required parameter: function"
      (by simp [dispatchInner, runInvokeFunction, hf]) (by decide)
  · exact guardConclusion _ _ _ _ "Missing required parameter: project_id"
      (by simp [dispatchInner, runGetProject, hf]) (by decide)
  · exact guardConclusion _ _ _ _
      "Missing required parameters: name, organization_id, region, db_pass"
      (by simp [dispatchInner, runCreateProject, hf]) (by decide)
  · exact guardConclusion _ _ _ _
      "Missing required parameters: name, organization_id, region, db_pass"
      (by simp [dispatchInner, runCreateProject, hf]) (by decide)
  · exact guardConclusion _ _ _ _
      "Missing required parameters: name, organization_id, region, db_pass"
      (by simp [dispatchInner, runCreateProject, hf]) (by decide)
  · exact guardConclusion _ _ _ _
      "Missing required parameters: name, organization_id, region, db_pass"
      (by simp [dispatchInner, runCreateProject, hf]) (by decide)
  · exact guardConclusion _ _ _ _ "Missing required parameter: project_id"
      (by simp [dispatchInner, runDeleteProject, hf]) (by decide)
  · exact guardConclusion _ _ _ _ "Missing required parameter: organization_id"
      (by simp [dispatchInner, runGetOrganization, hf]) (by decide)
  · exact guardConclusion _ _ _ _ "Missing required parameter: name"
      (by simp [dispatchInner, runCreateOrganization, hf]) (by decide)
  · exact guardConclusion _ _ _ _ "Missing required parameter: project_id"
      (by simp [dispatchInner, runGetProjectApiKeys, hf]) (by decide)
  · exact guardConclusion _ _ _ _ "Missing required parameter: user_id"
      (by simp [dispatchInner, runGetUser, hf]) (by decide)
  · exact guardConclusion _ _ _ _ "Missing required parameters: email, password"
      (by simp [dispatchInner, runCreateUser, hf]) (by decide)
  · exact guardConclusion _ _ _ _ "Missing required parameters: email, password"
      (by simp [dispatchInner, runCreateUser, hf]) (by decide)
  · exact guardConclusion _ _ _ _ "Missing required parameter: user_id"
      (by simp [dispatchInner, runUpdateUser, hf]) (by decide)
  · exact guardConclusion _ _ _ _ "Missing required parameter: user_id"
      (by simp [dispatchInner, runDeleteUser, hf]) (by decide)
  · exact guardConclusion _ _ _ _ "Missing required parameters: user_id, role"
      (by simp [dispatchInner, runAssignUserRole, hf]) (by decide)
  · exact guardConclusion _ _ _ _ "Missing required parameters: user_id, role"
      (by simp [dispatchInner, runAssignUserRole, hf]) (by decide)
  · exact guardConclusion _ _ _ _ "Missing required parameters: user_id, role"
      (by simp [dispatchInner, runRemoveUserRole, hf]) (by decide)
  · exact guardConclusion _ _ _ _ "Missing required parameters: user_id, role"
      (by simp [dispatchInner, runRemoveUserRole, hf]) (by decide)

theorem dispatchInner_unknown (oracle : Oracle) (name : String) (args : Args)
    (h : name ∉ catalogNames) :
    dispatchInner oracle name args =
      ⟨[], .error (Fault.mcp .methodNotFound ("Unknown tool: " ++ name))⟩ := by
  have hn : ∀ s : String, s ∈ catalogNames → ¬(name = s) := fun s hs he => h (he ▸ hs)
  simp only [dispatchInner,
    hn "create_record" (by decide), hn "read_records" (by decide),
    hn "update_record" (by decide), hn "delete_record" (by decide),
    hn "upload_file" (by decide), hn "download_file" (by decide),
    hn "invoke_function" (by decide), hn "list_projects" (by decide),
    hn "get_project" (by decide), hn "create_project" (by decide),
    hn "delete_project" (by decide), hn "list_organizations" (by decide),
    hn "get_organization" (by decide), hn "create_organization" (by decide),
    hn "get_project_api_keys" (by decide), hn "list_users" (by decide),
    hn "get_user" (by decide), hn "create_user" (by decide),
    hn "update_user" (by decide), hn "delete_user" (by decide),
    hn "assign_user_role" (by decide), hn "remove_user_role" (by decide),
    if_false, ite_false]

theorem gatedDispatch_unknown (oracle : Oracle) (name : String) (args : Args)
    (h : name ∉ gatedToolNames) :
    gatedDispatch oracle name args =
      ([], .error (Fault.mcp .methodNotFound ("Unknown tool: " ++ name))) := by
  have hn : ∀ s : String, s ∈ gatedToolNames → ¬(name = s) := fun s hs he => h (he ▸ hs)
  simp only [gatedDispatch,
    hn "create_record" (by decide), hn "list_tables" (by decide),
    hn "read_records" (by decide), hn "update_records" (by decide),
    hn "delete_records" (by decide), hn "upload_file" (by decide),
    hn "download_file" (by decide), hn "invoke_function" (by decide),
    hn "list_users" (by decide), hn "create_user" (by decide),
    hn "update_user" (by decide), hn "delete_user" (by decide),
    hn "assign_user_role" (by decide), hn "remove_user_role" (by decide),
    if_false, ite_false]

theorem mapGet_mapDelete (m : TicketMap) (k : String) :
    mapGet (mapDelete m k) k = none := by
  induction m with
  | nil => rfl
  | cons p rest ih =>
    obtain ⟨k2, v⟩ := p
    unfold mapDelete at ih ⊢
    by_cases hk : k2 = k
    · simpa [List.filter_cons, hk] using ih
    · simpa [List.filter_cons, hk, mapGet] using ih

theorem runRefresh_spec (ls : List RefreshListener) :
    runRefreshCallbacks ls =
      match ls.dropWhile (fun l => !l.throws) with
      | [] => (ls.map RefreshListener.id, none)
      | l :: _ =>
        (((ls.takeWhile (fun l2 => !l2.throws)).map RefreshListener.id) ++ [l.id],
         some "listener exception") := by
  induction ls with
  | nil => rfl
  | cons l rest ih =>
    by_cases hl : l.throws
    · simp [runRefreshCallbacks, hl, List.dropWhile_cons, List.takeWhile_cons]
    · cases hdrop : rest.dropWhile (fun l2 => !l2.throws) with
      | nil =>
        simp [runRefreshCallbacks, hl, List.dropWhile_cons, List.takeWhile_cons, ih, hdrop]
      | cons l2 tail =>
        simp [runRefreshCallbacks, hl, List.dropWhile_cons, List.takeWhile_cons, ih, hdrop]

theorem runCollabG_ordered_v (oracle : Oracle) (op : CollabOp) (k : Value → Envelope) :
    bodyOrdered (runCollabG oracle [GEvent.validationPassed] op k).1 = true := by
  unfold runCollabG
  split <;> rfl

theorem runCollabG_ordered_nov (oracle : Oracle) (op : CollabOp) (k : Value → Envelope) :
    bodyOrdered (runCollabG oracle [] op k).1 = true := by
  unfold runCollabG
  split <;> rfl

theorem runListTablesG_ordered (oracle : Oracle) (args : Args) :
    bodyOrdered (runListTablesG oracle args).1 = true := by
  unfold runListTablesG
  split
  · rfl
  · split <;> rfl

theorem runCreateRecordG_ordered (oracle : Oracle) (args : Args) :
    bodyOrdered (runCreateRecordG oracle args).1 = true := by
  unfold runCreateRecordG
  split
  · rfl
  · exact runCollabG_ordered_v _ _ _

theorem runReadRecordsG_ordered (oracle : Oracle) (args : Args) :
    bodyOrdered (runReadRecordsG oracle args).1 = true := by
  unfold runReadRecordsG
  split
  · rfl
  · exact runCollabG_ordered_v _ _ _

theorem runUpdateRecordsG_ordered (oracle : Oracle) (args : Args) :
    bodyOrdered (runUpdateRecordsG oracle args).1 = true := by
  unfold runUpdateRecordsG
  split
  · rfl
  · exact runCollabG_ordered_v _ _ _

theorem runDeleteRecordsG_ordered (oracle : Oracle) (args : Args) :
    bodyOrdered (runDeleteRecordsG oracle args).1 = true := by
  unfold runDeleteRecordsG
  split
  · rfl
  · exact runCollabG_ordered_v _ _ _

theorem runUploadFileG_ordered (oracle : Oracle) (args : Args) :
    bodyOrdered (runUploadFileG oracle args).1 = true := by
  unfold runUploadFileG
  split
  · rfl
  · exact runCollabG_ordered_v _ _ _

theorem runDownloadFileG_ordered (oracle : Oracle) (args : Args) :
    bodyOrdered (runDownloadFileG oracle args).1 = true := by
  unfold runDownloadFileG
  split
  · rfl
  · exact runCollabG_ordered_v _ _ _

theorem runInvokeFunctionG_ordered (oracle : Oracle) (args : Args) :
    bodyOrdered (runInvokeFunctionG oracle args).1 = true := by
  unfold runInvokeFunctionG
  split
  · rfl
  · exact runCollabG_ordered_v _ _ _

theorem runListUsersG_ordered (oracle : Oracle) (args : Args) :
    bodyOrdered (runListUsersG oracle args).1 = true := by
  unfold runListUsersG
  exact runCollabG_ordered_nov _ _ _

theorem runCreateUserG_ordered (oracle : Oracle) (args : Args) :
    bodyOrdered (runCreateUserG oracle args).1 = true := by
  unfold runCreateUserG
  split
  · rfl
  · exact runCollabG_ordered_v _ _ _

theorem runUpdateUserG_ordered (oracle : Oracle) (args : Args) :
    bodyOrdered (runUpdateUserG oracle args).1 = true := by
  unfold runUpdateUserG
  split
  · rfl
  · exact runCollabG_ordered_v _ _ _

theorem runDeleteUserG_ordered (oracle : Oracle) (args : Args) :
    bodyOrdered (runDeleteUserG oracle args).1 = true := by
  unfold runDeleteUserG
  split
  · rfl
  · exact runCollabG_ordered_v _ _ _

theorem runAssignUserRoleG_ordered (oracle : Oracle) (args : Args) :
    bodyOrdered (runAssignUserRoleG oracle args).1 = true := by
  unfold runAssignUserRoleG
  split
  · rfl
  · exact runCollabG_ordered_v _ _ _

theorem runRemoveUserRoleG_ordered (oracle : Oracle) (args : Args) :
    bodyOrdered (runRemoveUserRoleG oracle args).1 = true := by
  unfold runRemoveUserRoleG
  split
  · rfl
  · exact runCollabG_ordered_v _ _ _

theorem gatedDispatch_ordered (oracle : Oracle) (name : String) (args : Args) :
    bodyOrdered (gatedDispatch oracle name args).1 = true := by
  by_cases h1 : name = "create_record"
  · subst h1; simpa [gatedDispatch] using runCreateRecordG_ordered oracle args
  by_cases h2 : name = "list_tables"
  · subst h2; simpa [gatedDispatch] using runListTablesG_ordered oracle args
  by_cases h3 : name = "read_records"
  · subst h3; simpa [gatedDispatch] using runReadRecordsG_ordered oracle args
  by_cases h4 : name = "update_records"
  · subst h4; simpa [gatedDispatch] using runUpdateRecordsG_ordered oracle args
  by_cases h5 : name = "delete_records"
  · subst h5; simpa [gatedDispatch] using runDeleteRecordsG_ordered oracle args
  by_cases h6 : name = "upload_file"
  · subst h6; simpa [gatedDispatch] using runUploadFileG_ordered oracle args
  by_cases h7 : name = "download_file"
  · subst h7; simpa [gatedDispatch] using runDownloadFileG_ordered oracle args
  by_cases h8 : name = "invoke_function"
  · subst h8; simpa [gatedDispatch] using runInvokeFunctionG_ordered oracle args
  by_cases h9 : name = "list_users"
  · subst h9; simpa [gatedDispatch] using runListUsersG_ordered oracle args
  by_cases h10 : name = "create_user"
  · subst h10; simpa [gatedDispatch] using runCreateUserG_ordered oracle args
  by_cases h11 : name = "update_user"
  · subst h11; simpa [gatedDispatch] using runUpdateUserG_ordered oracle args
  by_cases h12 : name = "delete_user"
  · subst h12; simpa [gatedDispatch] using runDeleteUserG_ordered oracle args
  by_cases h13 : name = "assign_user_role"
  · subst h13; simpa [gatedDispatch] using runAssignUserRoleG_ordered oracle args
  by_cases h14 : name = "remove_user_role"
  · subst h14; simpa [gatedDispatch] using runRemoveUserRoleG_ordered oracle args
  simp [gatedDispatch, h1, h2, h3, h4, h5, h6, h7, h8, h9, h10, h11, h12, h13, h14,
    bodyOrdered, phaseMono]

theorem gatedInner_ordered (oracle : Oracle) (approved : Bool) (name : String) (args : Args) :
    bodyOrdered (gatedInner oracle approved name args).1 = true := by
  unfold gatedInner
  split
  · exact gatedDispatch_ordered _ _ _
  · rfl

theorem phaseMono_append_three (l : List Nat) (hall : l.all (fun p => p ≤ 3) = true)
    (h : phaseMono l = true) : phaseMono (l ++ [3]) = true := by
  induction l with
  | nil => rfl
  | cons a rest ih =>
    cases rest with
    | nil =>
      simp only [List.all_cons, Bool.and_eq_true, decide_eq_true_eq] at hall
      simp [phaseMono, hall.1]
    | cons b tail =>
      simp only [List.cons_append, phaseMono, Bool.and_eq_true] at h ⊢
      refine ⟨h.1, ?_⟩
      have hall2 : (b :: tail).all (fun p => p ≤ 3) = true := by
        simp only [List.all_cons, Bool.and_eq_true] at hall ⊢
        exact hall.2
      have := ih hall2 h.2
      simpa [List.cons_append] using this

theorem phaseMono_full (l : List Nat) (hall : l.all (fun p => p ≤ 3) = true)
    (h : phaseMono l = true) : phaseMono (0 :: 0 :: (l ++ [3])) = true := by
  cases l with
  | nil => rfl
  | cons a rest =>
    have htail : phaseMono ((a :: rest) ++ [3]) = true := phaseMono_append_three _ hall h
    simp only [List.cons_append, phaseMono, Bool.and_eq_true] at htail ⊢
    exact ⟨by simp, by simp, htail⟩

/-! ## Claims -/

/-- C1: In the approval-gated variant, a tool call whose approval ticket is
resolved with false invokes no external collaborator operation, and the call
returns an isError envelope conveying the
InvalidRequest/"Tool call was denied by user" fault. -/
theorem claim_C1 (oracle : Oracle) (name : String) (args : Args) :
    (handleCallToolGated oracle false name args).1
      = errEnvelope "Tool call was denied by user"
    ∧ gatedCollabCount (handleCallToolGated oracle false name args).2 = 0
    ∧ (gatedInner oracle false name args).2
      = .error (Fault.mcp .invalidRequest "Tool call was denied by user") :=
  ⟨rfl, rfl, rfl⟩

/-- C3: For every tool of the simpler variant's catalog and every argument
bag missing one of its required fields, dispatch raises InvalidParams, the
returned envelope has isError true with a message naming the missing field,
and no collaborator operation is issued. -/
theorem claim_C3 (oracle : Oracle) (t : ToolDescriptor) (ht : t ∈ catalog)
    (r : String) (hr : r ∈ t.required) (args : Args)
    (habsent : lookupArg args r = none) :
    isInvalidParamsFault (dispatchInner oracle t.name args).result = true
    ∧ (handleCallTool oracle t.name args).1.isError = some true
    ∧ strContains (envText (handleCallTool oracle t.name args).1) r = true
    ∧ (handleCallTool oracle t.name args).2 = [] :=
  dispatch_requiredGuard oracle t ht r hr args (argFalsy_of_none args r habsent)

/-- Witness for C3: calling create_record without data yields the
InvalidParams envelope naming "data" and an empty collaborator trace. -/
theorem claim_C3_witness :
    ((⟨"create_record", ["table", "data"]⟩ : ToolDescriptor) ∈ catalog
     ∧ "data" ∈ (⟨"create_record", ["table", "data"]⟩ : ToolDescriptor).required
     ∧ lookupArg ([("table", Value.str "users")] : Args) "data" = none)
    ∧ (isInvalidParamsFault
        (dispatchInner oracleStub "create_record" [("table", Value.str "users")]).result = true
       ∧ (handleCallTool oracleStub "create_record"
            [("table", Value.str "users")]).1.isError = some true
       ∧ strContains
           (envText (handleCallTool oracleStub "create_record"
             [("table", Value.str "users")]).1) "data" = true
       ∧ (handleCallTool oracleStub "create_record" [("table", Value.str "users")]).2 = []) :=
  ⟨⟨by decide, by decide, rfl⟩,
   claim_C3 oracleStub ⟨"create_record", ["table", "data"]⟩ (by decide) "data" (by decide)
     [("table", Value.str "users")] rfl⟩

/-- C4: Every fault raised inside a tool-call handler is caught at the
dispatch boundary and converted into a returned envelope with isError true
whose text is "Error: " followed by the original message; a successful
handler result is returned unchanged; the gated variant's boundary behaves
the same. The handlers, being total functions into envelopes, never let a
fault escape. -/
theorem claim_C4 (oracle : Oracle) (name : String) (args : Args) :
    (∀ f, (dispatchInner oracle name args).result = .error f →
        (handleCallTool oracle name args).1 = errEnvelope (Fault.message f)
        ∧ (handleCallTool oracle name args).1.isError = some true
        ∧ envText (handleCallTool oracle name args).1 = "Error: " ++ Fault.message f)
    ∧ (∀ env, (dispatchInner oracle name args).result = .ok env →
        (handleCallTool oracle name args).1 = env)
    ∧ (∀ approved f, (gatedInner oracle approved name args).2 = .error f →
        (handleCallToolGated oracle approved name args).1 = errEnvelope (Fault.message f)) := by
  refine ⟨?_, ?_, ?_⟩
  · intro f h
    refine ⟨handleCallTool_of_error oracle name args f h, ?_, ?_⟩
    · rw [handleCallTool_of_error oracle name args f h]
      rfl
    · rw [handleCallTool_of_error oracle name args f h]
      rfl
  · intro env h
    exact handleCallTool_of_ok oracle name args env h
  · intro approved f h
    exact handleCallToolGated_of_error oracle approved name args f h

/-- Witness for C4: an unknown-tool fault is caught and surfaced with its
message preserved. -/
theorem claim_C4_witness :
    ((dispatchInner oracleStub "no_such_tool" []).result
       = .error (Fault.mcp .methodNotFound "Unknown tool: no_such_tool"))
    ∧ (handleCallTool oracleStub "no_such_tool" []).1
       = errEnvelope "Unknown tool: no_such_tool" :=
  ⟨rfl,
   ((claim_C4 oracleStub "no_such_tool" []).1
      (Fault.mcp .methodNotFound "Unknown tool: no_such_tool") rfl).1⟩

/-- C7: Resolving an approval ticket removes it from the ticket map at the
moment of resolution, so a second resolution of the same correlation id is a
no-op: no callback is invoked and the map is unchanged. -/
theorem claim_C7 (m : TicketMap) (requestId : String) (cb : Nat) (b b2 : Bool)
    (h : mapGet m requestId = some cb) :
    (handleToolApproval m requestId b).2 = some (cb, b)
    ∧ mapGet (handleToolApproval m requestId b).1 requestId = none
    ∧ handleToolApproval (handleToolApproval m requestId b).1 requestId b2
        = ((handleToolApproval m requestId b).1, none) := by
  have h1 : handleToolApproval m requestId b = (mapDelete m requestId, some (cb, b)) := by
    unfold handleToolApproval
    rw [h]
  rw [h1]
  refine ⟨rfl, mapGet_mapDelete m requestId, ?_⟩
  unfold handleToolApproval
  rw [mapGet_mapDelete m requestId]

/-- Witness for C7: a concrete one-ticket map, resolved and then resolved
again. -/
theorem claim_C7_witness :
    (mapGet [("r1", 7)] "r1" = some 7)
    ∧ ((handleToolApproval [("r1", 7)] "r1" false).2 = some (7, false)
       ∧ mapGet (handleToolApproval [("r1", 7)] "r1" false).1 "r1" = none
       ∧ handleToolApproval (handleToolApproval [("r1", 7)] "r1" false).1 "r1" true
           = ((handleToolApproval [("r1", 7)] "r1" false).1, none)) :=
  ⟨rfl, claim_C7 [("r1", 7)] "r1" 7 false true rfl⟩

/-- C8: A CallTool request whose tool name is in neither catalog returns an
isError envelope with the MethodNotFound "Unknown tool" message, raises the
MethodNotFound fault internally, and issues no collaborator operation in
either variant (the gated variant shown after approval). -/
theorem claim_C8 (oracle : Oracle) (name : String) (args : Args)
    (h1 : name ∉ catalogNames) (h2 : name ∉ gatedToolNames) :
    handleCallTool oracle name args = (errEnvelope ("Unknown tool: " ++ name), [])
    ∧ (dispatchInner oracle name args).result
        = .error (Fault.mcp .methodNotFound ("Unknown tool: " ++ name))
    ∧ (handleCallToolGated oracle true name args).1
        = errEnvelope ("Unknown tool: " ++ name)
    ∧ gatedCollabCount (handleCallToolGated oracle true name args).2 = 0 := by
  have hd := dispatchInner_unknown oracle name args h1
  have hg := gatedDispatch_unknown oracle name args h2
  have hgi : gatedInner oracle true name args
      = ([], .error (Fault.mcp .methodNotFound ("Unknown tool: " ++ name))) := by
    unfold gatedInner
    simpa using hg
  refine ⟨?_, by rw [hd], ?_, ?_⟩
  · unfold handleCallTool
    rw [hd]
    rfl
  · exact handleCallToolGated_of_error oracle true name args _ (by rw [hgi])
  · rw [handleCallToolGated_trace]
    unfold gatedTrace
    rw [hgi]
    rfl

/-- Witness for C8: a concrete unknown tool name. -/
theorem claim_C8_witness :
    ("not_a_tool" ∉ catalogNames ∧ "not_a_tool" ∉ gatedToolNames)
    ∧ (handleCallTool oracleStub "not_a_tool" []
        = (errEnvelope "Unknown tool: not_a_tool", [])
       ∧ (dispatchInner oracleStub "not_a_tool" []).result
          = .error (Fault.mcp .methodNotFound "Unknown tool: not_a_tool")
       ∧ (handleCallToolGated oracleStub true "not_a_tool" []).1
          = errEnvelope "Unknown tool: not_a_tool"
       ∧ gatedCollabCount (handleCallToolGated oracleStub true "not_a_tool" []).2 = 0) :=
  ⟨⟨by decide, by decide⟩, claim_C8 oracleStub "not_a_tool" [] (by decide) (by decide)⟩

/-- C9: The unregister closure returned by onToolRefresh is idempotent:
after one call the listener is gone from the set, and a second call (on any
set) changes nothing and raises nothing (it is a total function). -/
theorem claim_C9 (s : ListenerSet) (c : Nat) :
    (c ∉ (onToolRefresh s c).2 ((onToolRefresh s c).1))
    ∧ (∀ s2 : ListenerSet,
        (onToolRefresh s c).2 ((onToolRefresh s c).2 s2) = (onToolRefresh s c).2 s2) := by
  constructor
  · show c ∉ setDelete (setAdd s c) c
    simp [setDelete, List.mem_filter]
  · intro s2
    show setDelete (setDelete s2 c) c = setDelete s2 c
    simp [setDelete, List.filter_filter]

/-- C10: Required-argument checks use JS falsiness, not key presence: a
required field supplied with a falsy value (empty string, 0, false, null) is
treated exactly like an omitted one — InvalidParams envelope naming the
field, and no collaborator invocation. -/
theorem claim_C10 (oracle : Oracle) (t : ToolDescriptor) (ht : t ∈ catalog)
    (r : String) (hr : r ∈ t.required) (args : Args) (v : Value)
    (hv : lookupArg args r = some v) (hfalsy : jsFalsy v = true) :
    isInvalidParamsFault (dispatchInner oracle t.name args).result = true
    ∧ (handleCallTool oracle t.name args).1.isError = some true
    ∧ strContains (envText (handleCallTool oracle t.name args).1) r = true
    ∧ (handleCallTool oracle t.name args).2 = [] :=
  dispatch_requiredGuard oracle t ht r hr args (argFalsy_of_falsy args r v hv hfalsy)

/-- Witness for C10: create_record with the empty string as table is
rejected as missing and reaches no collaborator. -/
theorem claim_C10_witness :
    ((⟨"create_record", ["table", "data"]⟩ : ToolDescriptor) ∈ catalog
     ∧ "table" ∈ (⟨"create_record", ["table", "data"]⟩ : ToolDescriptor).required
     ∧ lookupArg ([("table", Value.str "")] : Args) "table" = some (Value.str "")
     ∧ jsFalsy (Value.str "") = true)
    ∧ (isInvalidParamsFault
        (dispatchInner oracleStub "create_record" [("table", Value.str "")]).result = true
       ∧ (handleCallTool oracleStub "create_record"
            [("table", Value.str "")]).1.isError = some true
       ∧ strContains
           (envText (handleCallTool oracleStub "create_record"
             [("table", Value.str "")]).1) "table" = true
       ∧ (handleCallTool oracleStub "create_record" [("table", Value.str "")]).2 = []) :=
  ⟨⟨by decide, by decide, rfl, rfl⟩,
   claim_C10 oracleStub ⟨"create_record", ["table", "data"]⟩ (by decide) "table" (by decide)
     [("table", Value.str "")] (Value.str "") rfl rfl⟩

/-- C2 counterexample: an update call with the nested-operator filter
age gt 18 produces a single equality constraint comparing the age field with
the operator object itself — no greater-than comparison is issued, refuting
the claim for update (and delete) tool calls. -/
theorem claim_C2_counterexample :
    (handleCallTool oracleStub "update_record"
      [("table", Value.str "users"), ("data", Value.obj [("age", Value.num 31)]),
       ("filter", Value.obj [("age", Value.obj [("gt", Value.num 18)])])]).2
      = [CollabOp.dbUpdate (Value.str "users") (Value.obj [("age", Value.num 31)])
          [Constraint.eq "age" (Value.obj [("gt", Value.num 18)])] none]
    ∧ hasCmpConstraint [Constraint.eq "age" (Value.obj [("gt", Value.num 18)])] = false :=
  ⟨rfl, rfl⟩

/-- C2 (amended): In the simpler variant, only the read tool translates
filters structurally — a scalar entry becomes one equality constraint and a
nested operator mapping becomes one comparison per operator entry, entries
AND-chained; its update and delete tools, and the approval-gated variant's
read, update and delete tools, translate every top-level filter entry
(scalar or nested) to a single equality constraint on that field,
AND-chained. -/
theorem claim_C2_amended (oracle : Oracle) (t : String) (ht : t ≠ "")
    (fs : List (String × Value)) (dv : List (String × Value)) :
    (handleCallTool oracle "read_records"
      [("table", Value.str t), ("filter", Value.obj fs)]).2
      = [CollabOp.dbSelect (Value.str t) "*" (readFilterConstraints fs)]
    ∧ (∀ k v rest, isJsObjectType v = false →
        readFilterConstraints ((k, v) :: rest)
          = Constraint.eq k v :: readFilterConstraints rest)
    ∧ (∀ k conds rest,
        readFilterConstraints ((k, Value.obj conds) :: rest)
          = (conds.map fun c => Constraint.cmp k c.1 c.2) ++ readFilterConstraints rest)
    ∧ (handleCallTool oracle "update_record"
        [("table", Value.str t), ("data", Value.obj dv), ("filter", Value.obj fs)]).2
      = [CollabOp.dbUpdate (Value.str t) (Value.obj dv) (eqFilterConstraints fs) none]
    ∧ (handleCallTool oracle "delete_record"
        [("table", Value.str t), ("filter", Value.obj fs)]).2
      = [CollabOp.dbDelete (Value.str t) (eqFilterConstraints fs) none]
    ∧ (gatedDispatch oracle "read_records"
        [("table", Value.str t), ("filter", Value.obj fs)]).1
      = [GEvent.validationPassed,
         GEvent.collab (CollabOp.gDbSelect (Value.str t) (eqFilterConstraints fs) [] "*" none)]
    ∧ (gatedDispatch oracle "update_records"
        [("table", Value.str t), ("data", Value.obj dv), ("filter", Value.obj fs)]).1
      = [GEvent.validationPassed,
         GEvent.collab (CollabOp.dbUpdate (Value.str t) (Value.obj dv)
           (eqFilterConstraints fs) none)]
    ∧ (gatedDispatch oracle "delete_records"
        [("table", Value.str t), ("filter", Value.obj fs)]).1
      = [GEvent.validationPassed,
         GEvent.collab (CollabOp.dbDelete (Value.str t) (eqFilterConstraints fs) none)] := by
  have htb : ((t == "") : Bool) = false := by
    simp [ht]
  refine ⟨?_, ?_, ?_, ?_, ?_, ?_, ?_, ?_⟩
  · rw [handleCallTool_trace]
    simp [dispatchInner, runReadRecords, argFalsy, lookupArg, jsFalsy, htb,
      runCollab_trace, readFilterOf, jsEntriesTotal, selectStr, getArg]
  · intro k v rest h
    simp [readFilterConstraints, h]
  · intro k conds rest
    simp [readFilterConstraints, isJsObjectType, jsEntriesTotal]
  · rw [handleCallTool_trace]
    simp [dispatchInner, runUpdateRecord, argFalsy, lookupArg, jsFalsy, htb,
      runCollab_trace, eqFilterOf, jsEntriesTotal, returningSel, getArg]
  · rw [handleCallTool_trace]
    simp [dispatchInner, runDeleteRecord, argFalsy, lookupArg, jsFalsy, htb,
      runCollab_trace, eqFilterOf, jsEntriesTotal, returningSel, getArg]
  · simp [gatedDispatch, runReadRecordsG, argFalsy, lookupArg, jsFalsy, htb,
      runCollabG_events, eqFilterOf, jsEntriesTotal, selectStr, gatedJoins, gatedLimit, getArg]
  · simp [gatedDispatch, runUpdateRecordsG, argFalsy, lookupArg, jsFalsy, htb,
      runCollabG_events, jsEntriesTotal, returningSel, getArg]
  · simp [gatedDispatch, runDeleteRecordsG, argFalsy, lookupArg, jsFalsy, htb,
      runCollabG_events, jsEntriesTotal, returningSel, getArg]

/-- Witness for the amended C2, on the specification's own examples: a
status "draft" scalar entry and an age gt 18 operator entry, AND-combined,
in the simpler variant's read tool. -/
theorem claim_C2_amended_witness :
    ("posts" ≠ "")
    ∧ (handleCallTool oracleStub "read_records"
        [("table", Value.str "posts"),
         ("filter", Value.obj [("status", Value.str "draft"),
                               ("age", Value.obj [("gt", Value.num 18)])])]).2
      = [CollabOp.dbSelect (Value.str "posts") "*"
          [Constraint.eq "status" (Value.str "draft"),
           Constraint.cmp "age" "gt" (Value.num 18)]] :=
  ⟨by decide,
   (claim_C2_amended oracleStub "posts" (by decide)
      [("status", Value.str "draft"), ("age", Value.obj [("gt", Value.num 18)])]
      [("x", Value.num 1)]).1⟩

/-- C5 counterexample: with two registered refresh listeners of which the
first throws, the second listener never runs and the listing returns no
catalog — listener exceptions are not isolated. -/
theorem claim_C5_counterexample :
    handleListTools [⟨0, true⟩, ⟨1, false⟩] = (.error "listener exception", [0])
    ∧ (handleListTools [⟨0, true⟩, ⟨1, false⟩]).2.contains 1 = false :=
  ⟨rfl, rfl⟩

/-- C5 (amended): Listing the catalog invokes the registered refresh
listeners synchronously in registration order up to and including the first
listener that throws. If none throws, every listener runs in order and the
full catalog is returned; if one throws, its exception propagates uncaught:
the remaining listeners do not run and no catalog is returned. -/
theorem claim_C5_amended (ls : List RefreshListener) :
    handleListTools ls =
      match ls.dropWhile (fun l => !l.throws) with
      | [] => (.ok gatedCatalog, ls.map RefreshListener.id)
      | l :: _ =>
        (.error "listener exception",
         ((ls.takeWhile (fun l2 => !l2.throws)).map RefreshListener.id) ++ [l.id]) := by
  unfold handleListTools
  rw [runRefresh_spec ls]
  cases hdrop : ls.dropWhile (fun l => !l.throws) <;> simp [hdrop]

/-- C6 counterexample: a create_record call with a missing required argument
still goes through the approval gate first; the trace shows approval events
before the validation event, so the claimed validate-then-approve order is
violated. -/
theorem claim_C6_counterexample :
    (handleCallToolGated oracleStub true "create_record" [("table", Value.str "users")]).2
      = [GEvent.approvalRequested, GEvent.approvalResolved true,
         GEvent.validationFailed, GEvent.respond]
    ∧ claimedOrder
        (handleCallToolGated oracleStub true "create_record"
          [("table", Value.str "users")]).2 = false :=
  ⟨rfl, rfl⟩

/-- C6 (amended): Each gated call's internal steps are strictly sequential
in the order approve, then validate, then execute, then respond: the trace
is the two approval events, followed by a body of validation and
collaborator events in which no validation follows a collaborator call,
followed by the response event, and the phases in code order never
decrease. -/
theorem claim_C6_amended (oracle : Oracle) (approved : Bool) (name : String) (args : Args) :
    ∃ body,
      (handleCallToolGated oracle approved name args).2
        = GEvent.approvalRequested :: GEvent.approvalResolved approved
            :: (body ++ [GEvent.respond])
      ∧ bodyOrdered body = true
      ∧ phaseMono ((handleCallToolGated oracle approved name args).2.map gphase) = true := by
  have hb : bodyOrdered (gatedInner oracle approved name args).1 = true :=
    gatedInner_ordered oracle approved name args
  have hb2 : ((gatedInner oracle approved name args).1.all
        (fun e => gphase e == 1 || gphase e == 2) = true)
      ∧ phaseMono ((gatedInner oracle approved name args).1.map gphase) = true := by
    simpa [bodyOrdered] using hb
  obtain ⟨hall, hmono⟩ := hb2
  refine ⟨(gatedInner oracle approved name args).1, ?_, hb, ?_⟩
  · rw [handleCallToolGated_trace]
    rfl
  · rw [handleCallToolGated_trace]
    unfold gatedTrace
    have hmap : (GEvent.approvalRequested :: GEvent.approvalResolved approved ::
        ((gatedInner oracle approved name args).1 ++ [GEvent.respond])).map gphase
        = 0 :: 0 :: (((gatedInner oracle approved name args).1.map gphase) ++ [3]) := by
      simp [gphase]
    rw [hmap]
    apply phaseMono_full
    · rw [List.all_eq_true] at hall ⊢
      intro x hx
      obtain ⟨e, he, rfl⟩ := List.mem_map.mp hx
      have := hall e he
      simp only [Bool.or_eq_true, beq_iff_eq] at this
      rcases this with h1 | h2
      · simp [h1]
      · simp [h2]
    · exact hmono

end SupabaseMcp
